import Mathlib

/-!
Verification of the numeric-refinement-list, breadcrumb and pagination
connectors: the refinement predicate `isRefined`, the refinement toggler
`refine`, the hierarchy flattener `prepareItems`, and the connector
lifecycle (`init` / `render`) of the pagination and breadcrumb connectors.

The search-state object is an external collaborator, treated by the code as
an opaque immutable-update API.  Modelled from the spec: numeric
refinements are, per attribute, a set of numbers per operator (`=`, `>=`,
`<=`); an operator key is present in the refinement mapping exactly when
its set is nonempty, so "zero refinements of any operator" means all three
sets are empty.
-/

/-- The three numeric refinement operators `=`, `>=`, `<=`. -/
inductive Op : Type where
  | eq
  | ge
  | le
deriving DecidableEq, Repr

/-- Numeric refinements of one attribute: one list of values per operator.
Modelled from the spec: each operator's values form a set; lists are used
because the helper stores arrays, and an absent operator key is
represented by the empty list. -/
structure Refinements : Type where
  eq : List Int
  ge : List Int
  le : List Int
deriving DecidableEq, Repr

/-- The empty refinement mapping (no operator key present). -/
def Refinements.empty : Refinements := ⟨[], [], []⟩

/-- The list of values currently held under one operator. -/
def opValues (r : Refinements) (operator : Op) : List Int :=
  match operator with
  | Op.eq => r.eq
  | Op.ge => r.ge
  | Op.le => r.le

/-- Replace the list of values held under one operator. -/
def setOpValues (r : Refinements) (operator : Op) (l : List Int) : Refinements :=
  match operator with
  | Op.eq => { r with eq := l }
  | Op.ge => { r with ge := l }
  | Op.le => { r with le := l }

/-- The JS value `Object.keys(currentRefinements).length`:
the number of operator keys present, i.e. of nonempty operator sets. -/
def refinementsKeyCount (r : Refinements) : Nat :=
  (if r.eq.isEmpty then 0 else 1) +
    (if r.ge.isEmpty then 0 else 1) +
    (if r.le.isEmpty then 0 else 1)

/-- A search-state snapshot, restricted to what the connectors consume:
the numeric refinements, keyed by attribute name.  Modelled from the spec:
the state object is opaque and immutable; every mutation method returns a
new snapshot. -/
def SearchState : Type := String → Refinements

/-- Embeds `state.getNumericRefinements(attributeName)`. -/
def getNumericRefinements (state : SearchState) (attributeName : String) : Refinements :=
  state attributeName

/-- Functional update of one attribute's refinements (the common shape of
the three mutation methods below). -/
def setNumericRefinements (state : SearchState) (attributeName : String)
    (r : Refinements) : SearchState :=
  fun a => if a = attributeName then r else state a

/-- Embeds `state.clearRefinements(attributeName)`: drop every numeric refinement
of the attribute. -/
def clearRefinements (state : SearchState) (attributeName : String) : SearchState :=
  setNumericRefinements state attributeName Refinements.empty

/-- Embeds `state.addNumericRefinement(attributeName, operator, value)`: append
the value to the operator's set. -/
def addNumericRefinement (state : SearchState) (attributeName : String)
    (operator : Op) (value : Int) : SearchState :=
  let r := state attributeName
  setNumericRefinements state attributeName
    (setOpValues r operator (opValues r operator ++ [value]))

/-- Embeds `state.removeNumericRefinement(attributeName, operator, value)`: drop
the value from the operator's set. -/
def removeNumericRefinement (state : SearchState) (attributeName : String)
    (operator : Op) (value : Int) : SearchState :=
  let r := state attributeName
  setNumericRefinements state attributeName
    (setOpValues r operator ((opValues r operator).filter (fun x => x ≠ value)))

/-- One selectable option of the numeric refinement list:
`{ name, start?, end? }`. -/
structure NumOption : Type where
  name : String
  start : Option Int
  «end» : Option Int
deriving DecidableEq, Repr

/-- Embeds `hasNumericRefinement(currentRefinements, operator, value)`: the
operator key is present and its set includes the value. -/
def hasNumericRefinement (currentRefinements : Refinements) (operator : Op)
    (value : Int) : Bool :=
  let hasOperatorRefinements := !(opValues currentRefinements operator).isEmpty
  let includesValue := (opValues currentRefinements operator).contains value
  hasOperatorRefinements && includesValue

/-- Embeds `isRefined(state, attributeName, option)`: whether the option is
currently active in the state.  Rules in source order: equal defined
bounds check `=`; otherwise a defined `start` checks `>=`; otherwise a
defined `end` checks `<=`; the no-bounds option is refined exactly when
the attribute has no refinement under any operator. -/
def isRefined (state : SearchState) (attributeName : String)
    (option : NumOption) : Bool :=
  let currentRefinements := getNumericRefinements state attributeName
  match option.start, option.«end» with
  | some s, some e =>
    if s = e then hasNumericRefinement currentRefinements Op.eq s
    else hasNumericRefinement currentRefinements Op.ge s
  | some s, none => hasNumericRefinement currentRefinements Op.ge s
  | none, some e => hasNumericRefinement currentRefinements Op.le e
  | none, none => refinementsKeyCount currentRefinements == 0

/-- Errors `refine` can raise: the selected name resolves to no catalog
option (the JS code dereferences `undefined` there), or a single option
carries `start > end`. -/
inductive RefineError : Type where
  | noSuchOption
  | invalidRange
deriving DecidableEq, Repr

/-- The trailing part of `refine`: toggle the `>=` refinement at `start`
(when defined) and the `<=` refinement at `end` (when defined), each
against its own presence in `currentRefinements` — the refinements read
from the incoming state before any clearing. -/
def toggleStartEnd (resolvedState : SearchState) (attributeName : String)
    (currentRefinements : Refinements) (refinedOption : NumOption) : SearchState :=
  let afterStart :=
    match refinedOption.start with
    | some s =>
      if hasNumericRefinement currentRefinements Op.ge s then
        removeNumericRefinement resolvedState attributeName Op.ge s
      else
        addNumericRefinement resolvedState attributeName Op.ge s
    | none => resolvedState
  match refinedOption.«end» with
  | some e =>
    if hasNumericRefinement currentRefinements Op.le e then
      removeNumericRefinement afterStart attributeName Op.le e
    else
      addNumericRefinement afterStart attributeName Op.le e
  | none => afterStart

/-- Embeds `refine(state, attributeName, options, facetValue)`: resolve the
selected name in the catalog, then (in source order) reset when the
option has no bounds, clear the attribute when the option is not
currently refined, reject `start > end`, toggle `=` for a point option,
and otherwise toggle `>=` and `<=` independently. -/
def refine (state : SearchState) (attributeName : String)
    (options : List NumOption) (facetValue : String) :
    Except RefineError SearchState :=
  match List.find? (fun o => o.name == facetValue) options with
  | none => Except.error RefineError.noSuchOption
  | some refinedOption =>
    let currentRefinements := getNumericRefinements state attributeName
    if refinedOption.start = none ∧ refinedOption.«end» = none then
      Except.ok (clearRefinements state attributeName)
    else
      let resolvedState :=
        if isRefined state attributeName refinedOption then state
        else clearRefinements state attributeName
      match refinedOption.start, refinedOption.«end» with
      | some s, some e =>
        if s > e then Except.error RefineError.invalidRange
        else if s = e then
          Except.ok
            (if hasNumericRefinement currentRefinements Op.eq s then
              removeNumericRefinement resolvedState attributeName Op.eq s
            else
              addNumericRefinement resolvedState attributeName Op.eq s)
        else
          Except.ok (toggleStartEnd resolvedState attributeName currentRefinements refinedOption)
      | _, _ =>
        Except.ok (toggleStartEnd resolvedState attributeName currentRefinements refinedOption)

instance exceptDecEq {ε α : Type} [DecidableEq ε] [DecidableEq α] :
    DecidableEq (Except ε α) := fun x y =>
  match x, y with
  | Except.ok a, Except.ok b =>
    if h : a = b then Decidable.isTrue (by rw [h]) else Decidable.isFalse (by simp [h])
  | Except.error a, Except.error b =>
    if h : a = b then Decidable.isTrue (by rw [h]) else Decidable.isFalse (by simp [h])
  | Except.ok _, Except.error _ => Decidable.isFalse (by simp)
  | Except.error _, Except.ok _ => Decidable.isFalse (by simp)

-- Basic facts about the state operations, shared by several claims.

theorem setNumericRefinements_same (state : SearchState) (a : String) (r : Refinements) :
    setNumericRefinements state a r a = r := by
  simp [setNumericRefinements]

theorem setNumericRefinements_setNumericRefinements (state : SearchState) (a : String)
    (r₁ r₂ : Refinements) :
    setNumericRefinements (setNumericRefinements state a r₁) a r₂ =
      setNumericRefinements state a r₂ := by
  funext x
  by_cases hx : x = a <;> simp [setNumericRefinements, hx]

theorem setNumericRefinements_self (state : SearchState) (a : String) :
    setNumericRefinements state a (state a) = state := by
  funext x
  by_cases hx : x = a <;> simp [setNumericRefinements, hx]

/-- One level of a refined hierarchical path: `{ name, value }`. -/
structure BreadcrumbItem : Type where
  name : String
  value : String
deriving DecidableEq, Repr

/-- A node of the hierarchical facet-value tree returned by the engine:
a name, a path, the refined mark, and `data` — the children, which may be
absent (the JS code checks `Array.isArray` before recursing). -/
inductive FacetValueNode : Type where
  | mk : String → String → Bool → Option (List FacetValueNode) → FacetValueNode

def FacetValueNode.name : FacetValueNode → String
  | .mk n _ _ _ => n

def FacetValueNode.path : FacetValueNode → String
  | .mk _ p _ _ => p

def FacetValueNode.isRefined : FacetValueNode → Bool
  | .mk _ _ r _ => r

def FacetValueNode.data : FacetValueNode → Option (List FacetValueNode)
  | .mk _ _ _ d => d

/-- The body of `prepareItems`'s `reduce`: walk the children left to
right; a refined child contributes its item followed by its flattened
descendants (when it has a `data` array); an unrefined child contributes
nothing and is not traversed. -/
def prepareItemsList : List FacetValueNode → List BreadcrumbItem
  | [] => []
  | FacetValueNode.mk name path refined data :: rest =>
    (if refined then
      { name := name, value := path } ::
        (match data with
        | some children => prepareItemsList children
        | none => [])
    else []) ++ prepareItemsList rest

/-- Embeds `prepareItems(obj)`: flatten the refined branch of `obj.data`. -/
def prepareItems (obj : FacetValueNode) : List BreadcrumbItem :=
  match obj.data with
  | some l => prepareItemsList l
  | none => []

/-- The data fields of the pagination render payload (the function-valued
fields `createURL`/`setPage` and the opaque instance handle are not
observable data and are left out of the embedding). -/
structure PaginationPayload : Type where
  currentPage : Nat
  nbHits : Nat
  nbPages : Nat
deriving DecidableEq, Repr

/-- JS `x || 0` on a possibly-undefined page number. -/
def pageOrZero (page : Option Nat) : Nat :=
  match page with
  | some p => if p = 0 then 0 else p
  | none => 0

/-- Pagination `init`: the sequence of render-callback invocations it
performs, each an `(payload, isFirstRendering)` pair.  `helperPage` is
what `helper.getPage()` returns. -/
def connectPaginationInit (helperPage : Option Nat) : List (PaginationPayload × Bool) :=
  [({ currentPage := pageOrZero helperPage, nbHits := 0, nbPages := 0 }, true)]

/-- Pagination `getMaxPage({nbPages})`: cap by `maxPages` when set. -/
def getMaxPage (maxPages : Option Nat) (nbPages : Nat) : Nat :=
  match maxPages with
  | some m => min m nbPages
  | none => nbPages

/-- One pagination `render` call: the invocations it performs, given the
state's page and the result's `nbHits` / `nbPages`. -/
def connectPaginationRender (maxPages : Option Nat) (statePage nbHits nbPages : Nat) :
    List (PaginationPayload × Bool) :=
  [({ currentPage := statePage, nbHits := nbHits,
      nbPages := getMaxPage maxPages nbPages }, false)]

/-- The render-callback trace of a pagination connector's lifetime:
`init` once, then one `render` per completed search, in order.  Each
render context is `(state.page, results.nbHits, results.nbPages)`. -/
def paginationRenderCalls (maxPages : Option Nat) :
    List (Nat × Nat × Nat) → List (PaginationPayload × Bool)
  | [] => []
  | ctx :: rest =>
    connectPaginationRender maxPages ctx.1 ctx.2.1 ctx.2.2 ++
      paginationRenderCalls maxPages rest

def paginationTrace (helperPage : Option Nat) (maxPages : Option Nat)
    (renderContexts : List (Nat × Nat × Nat)) : List (PaginationPayload × Bool) :=
  connectPaginationInit helperPage ++ paginationRenderCalls maxPages renderContexts

/-- The data fields of the breadcrumb render payload. -/
structure BreadcrumbPayload : Type where
  canRefine : Bool
  items : List BreadcrumbItem
deriving DecidableEq, Repr

/-- Breadcrumb `init`: invokes the render callback once, with no items
and `canRefine = false`, flagged as the first rendering. -/
def connectBreadcrumbInit : List (BreadcrumbPayload × Bool) :=
  [({ canRefine := false, items := [] }, true)]

/-- The connector-level error of breadcrumb `render`: the usage error
thrown when the state carries no hierarchical facet configuration. -/
inductive ConnectorError : Type where
  | usageError
deriving DecidableEq, Repr

/-- Breadcrumb `render`: fails when `state.hierarchicalFacets` is absent
or an empty array; otherwise flattens the facet values of the first
hierarchical facet and invokes the render callback once with
`isFirstRendering = false`.  `hierarchicalFacets` carries the configured
facet names; `facetsValues` is what `results.getFacetValues` returns for
the first one. -/
def connectBreadcrumbRender (hierarchicalFacets : Option (List String))
    (facetsValues : FacetValueNode) :
    Except ConnectorError (List (BreadcrumbPayload × Bool)) :=
  match hierarchicalFacets with
  | none => Except.error ConnectorError.usageError
  | some [] => Except.error ConnectorError.usageError
  | some (_ :: _) =>
    let items := prepareItems facetsValues
    Except.ok [({ canRefine := items.length > 0, items := items }, false)]

theorem hasNumericRefinement_iff_mem (r : Refinements) (operator : Op) (v : Int) :
    hasNumericRefinement r operator v = true ↔ v ∈ opValues r operator := by
  unfold hasNumericRefinement
  cases h : opValues r operator <;> simp [h]

-- C4

/-- C4: on an option whose two bounds are both defined with
`start > end`, `refine` fails synchronously with the invalid-range error
for every incoming state; no state (in particular none with reordered
bounds) is ever returned. -/
theorem refine_start_gt_end_error (state : SearchState) (attributeName : String)
    (options : List NumOption) (facetValue : String) (opt : NumOption) (a b : Int)
    (hfind : List.find? (fun o => o.name == facetValue) options = some opt)
    (hs : opt.start = some a) (he : opt.«end» = some b) (hgt : a > b) :
    refine state attributeName options facetValue = Except.error RefineError.invalidRange := by
  have hne : ¬(opt.start = none ∧ opt.«end» = none) := by simp [hs]
  simp [refine, hfind, hs, he, hne, hgt]

/-- C4 witness: the spec's own instance `start = 50, end = 10`. -/
theorem refine_start_gt_end_error_witness :
    refine (fun _ => Refinements.empty) "price" [⟨"r", some 50, some 10⟩] "r" =
      Except.error RefineError.invalidRange :=
  refine_start_gt_end_error (fun _ => Refinements.empty) "price"
    [⟨"r", some 50, some 10⟩] "r" ⟨"r", some 50, some 10⟩ 50 10
    (by decide) rfl rfl (by decide)

-- C5

/-- C5: when the selected name matches no catalog option, `refine` fails
synchronously with the no-such-option error for every incoming state; the
state is a value and the error result carries no state, so the caller's
state is untouched. -/
theorem refine_no_such_option (state : SearchState) (attributeName : String)
    (options : List NumOption) (facetValue : String)
    (hfind : List.find? (fun o => o.name == facetValue) options = none) :
    refine state attributeName options facetValue = Except.error RefineError.noSuchOption := by
  simp [refine, hfind]

/-- C5 witness: a name absent from a nonempty catalog. -/
theorem refine_no_such_option_witness :
    refine (fun _ => Refinements.empty) "price" [⟨"a", some 1, none⟩] "zzz" =
      Except.error RefineError.noSuchOption :=
  refine_no_such_option (fun _ => Refinements.empty) "price"
    [⟨"a", some 1, none⟩] "zzz" (by decide)

-- C6

/-- C6: refining with the no-bounds ("All") option returns the state with
every numeric refinement of the attribute cleared, whatever operators
were active before. -/
theorem refine_reset_clears (state : SearchState) (attributeName : String)
    (options : List NumOption) (facetValue : String) (opt : NumOption)
    (hfind : List.find? (fun o => o.name == facetValue) options = some opt)
    (hs : opt.start = none) (he : opt.«end» = none) :
    refine state attributeName options facetValue =
        Except.ok (clearRefinements state attributeName) ∧
      getNumericRefinements (clearRefinements state attributeName) attributeName =
        Refinements.empty := by
  constructor
  · simp [refine, hfind, hs, he]
  · simp [getNumericRefinements, clearRefinements, setNumericRefinements_same]

/-- C6 witness: a state with all three operators active for the
attribute. -/
theorem refine_reset_clears_witness :
    refine (fun _ => ⟨[1], [2], [3]⟩) "price" [⟨"all", none, none⟩] "all" =
        Except.ok (clearRefinements (fun _ => ⟨[1], [2], [3]⟩) "price") ∧
      getNumericRefinements (clearRefinements (fun _ => ⟨[1], [2], [3]⟩) "price") "price" =
        Refinements.empty :=
  refine_reset_clears (fun _ => ⟨[1], [2], [3]⟩) "price" [⟨"all", none, none⟩] "all"
    ⟨"all", none, none⟩ (by decide) rfl rfl

-- C9

/-- C9: breadcrumb `render` on a state whose hierarchical facet
configuration is absent or an empty list fails with the usage error; the
error result carries no render-callback invocation, so the render
callback is not invoked with a partial or empty view. -/
theorem breadcrumb_render_missing_config (hierarchicalFacets : Option (List String))
    (facetsValues : FacetValueNode)
    (h : hierarchicalFacets = none ∨ hierarchicalFacets = some []) :
    connectBreadcrumbRender hierarchicalFacets facetsValues =
      Except.error ConnectorError.usageError := by
  rcases h with h | h <;> simp [connectBreadcrumbRender, h]

/-- C9 witness: the absent-configuration case. -/
theorem breadcrumb_render_missing_config_witness :
    connectBreadcrumbRender none (FacetValueNode.mk "r" "r" true none) =
      Except.error ConnectorError.usageError :=
  breadcrumb_render_missing_config none (FacetValueNode.mk "r" "r" true none) (Or.inl rfl)

-- C10

/-- C10: for an option with both bounds defined and `start ≠ end`,
`isRefined` is true exactly when the attribute holds a `>=` refinement at
`start`; the `end` bound is never consulted — two such options differing
only in their `end` are equi-refined. -/
theorem isRefined_unequal_bounds (state : SearchState) (attributeName n : String)
    (a b b' : Int) (hne : a ≠ b) (hne' : a ≠ b') :
    (isRefined state attributeName ⟨n, some a, some b⟩ = true ↔
        a ∈ (getNumericRefinements state attributeName).ge) ∧
      isRefined state attributeName ⟨n, some a, some b⟩ =
        isRefined state attributeName ⟨n, some a, some b'⟩ := by
  constructor
  · simp [isRefined, hne, hasNumericRefinement_iff_mem, opValues]
  · simp [isRefined, hne, hne']

/-- C10 witness: option `{start: 20, end: 30}` against a state refined at
`>= 20`, compared with the same option with `end = 40`. -/
theorem isRefined_unequal_bounds_witness :
    (isRefined (fun _ => ⟨[], [20], []⟩) "price" ⟨"q", some 20, some 30⟩ = true ↔
        20 ∈ (getNumericRefinements (fun _ => ⟨[], [20], []⟩) "price").ge) ∧
      isRefined (fun _ => ⟨[], [20], []⟩) "price" ⟨"q", some 20, some 30⟩ =
        isRefined (fun _ => ⟨[], [20], []⟩) "price" ⟨"q", some 20, some 40⟩ :=
  isRefined_unequal_bounds (fun _ => ⟨[], [20], []⟩) "price" "q" 20 30 40
    (by decide) (by decide)

-- Facts about the flattener, shared by the breadcrumb claims.

theorem prepareItemsList_nil : prepareItemsList [] = [] := by
  simp [prepareItemsList]

theorem prepareItemsList_all_unrefined (l : List FacetValueNode)
    (hl : ∀ x ∈ l, x.isRefined = false) : prepareItemsList l = [] := by
  induction l with
  | nil => simp [prepareItemsList]
  | cons hd tl ih =>
    cases hd with
    | mk n p r d =>
      have hr : r = false := hl (FacetValueNode.mk n p r d) (by simp)
      subst hr
      rw [prepareItemsList.eq_def]
      simpa using ih fun x hx => hl x (by simp [hx])

theorem prepareItemsList_cons_unrefined (c : FacetValueNode) (rest : List FacetValueNode)
    (hc : c.isRefined = false) :
    prepareItemsList (c :: rest) = prepareItemsList rest := by
  cases c with
  | mk n p r d =>
    simp [FacetValueNode.isRefined] at hc
    subst hc
    rw [prepareItemsList.eq_def]
    simp

theorem prepareItemsList_cons_refined (n p : String) (d : Option (List FacetValueNode))
    (rest : List FacetValueNode) :
    prepareItemsList (FacetValueNode.mk n p true d :: rest) =
      { name := n, value := p } :: (prepareItemsList (d.getD []) ++ prepareItemsList rest) := by
  cases d <;> rw [prepareItemsList.eq_def] <;>
    simp [show prepareItemsList [] = [] from by rw [prepareItemsList.eq_def]]

-- C7

/-- C7: `prepareItems` is the depth-first refined-branch-only flattening,
root first: on the spec's example tree (a refined child with a refined
grandchild, next to an unrefined child) it yields exactly the two refined
items in root-first order; a level with no refined child contributes an
empty sequence (not an error); an unrefined child contributes nothing and
is not traversed; a refined child contributes its item followed
immediately by its flattened descendants, then its later siblings. -/
theorem prepareItems_refined_path (l : List FacetValueNode) (c : FacetValueNode)
    (rest : List FacetValueNode) (n p : String) (d : Option (List FacetValueNode))
    (hl : ∀ x ∈ l, x.isRefined = false) (hc : c.isRefined = false) :
    prepareItems (FacetValueNode.mk "root" "" true
        (some [FacetValueNode.mk "c" "p1" true (some [FacetValueNode.mk "g" "p2" true none]),
          FacetValueNode.mk "u" "p3" false none])) =
        [{ name := "c", value := "p1" }, { name := "g", value := "p2" }] ∧
      prepareItemsList l = [] ∧
      prepareItemsList (c :: rest) = prepareItemsList rest ∧
      prepareItemsList (FacetValueNode.mk n p true d :: rest) =
        { name := n, value := p } ::
          (prepareItemsList (d.getD []) ++ prepareItemsList rest) := by
  refine ⟨?_, ?_, ?_, ?_⟩
  · simp [prepareItems, prepareItemsList, FacetValueNode.data]
  · exact prepareItemsList_all_unrefined l hl
  · exact prepareItemsList_cons_unrefined c rest hc
  · exact prepareItemsList_cons_refined n p d rest

/-- C7 witness: an unrefined-only level, an unrefined head, and a refined
head with no children. -/
theorem prepareItems_refined_path_witness :
    prepareItems (FacetValueNode.mk "root" "" true
        (some [FacetValueNode.mk "c" "p1" true (some [FacetValueNode.mk "g" "p2" true none]),
          FacetValueNode.mk "u" "p3" false none])) =
        [{ name := "c", value := "p1" }, { name := "g", value := "p2" }] ∧
      prepareItemsList [FacetValueNode.mk "x" "y" false none] = [] ∧
      prepareItemsList [FacetValueNode.mk "u" "q" false none] = prepareItemsList [] ∧
      prepareItemsList [FacetValueNode.mk "a" "b" true none] =
        { name := "a", value := "b" } ::
          (prepareItemsList ((none : Option (List FacetValueNode)).getD []) ++
            prepareItemsList []) :=
  prepareItems_refined_path [FacetValueNode.mk "x" "y" false none]
    (FacetValueNode.mk "u" "q" false none) [] "a" "b" none
    (by simp [FacetValueNode.isRefined]) rfl

-- Facts about the connector lifecycle traces, shared by C8.

theorem paginationRenderCalls_all_not_first (maxPages : Option Nat)
    (l : List (Nat × Nat × Nat)) :
    (paginationRenderCalls maxPages l).all (fun c => !c.2) = true := by
  induction l with
  | nil => rfl
  | cons hd tl ih => simp [paginationRenderCalls, connectPaginationRender, ih]

theorem connectBreadcrumbRender_ok_not_first (hierarchicalFacets : Option (List String))
    (facetsValues : FacetValueNode) (calls : List (BreadcrumbPayload × Bool))
    (hok : connectBreadcrumbRender hierarchicalFacets facetsValues = Except.ok calls) :
    calls.all (fun c => !c.2) = true := by
  cases hierarchicalFacets with
  | none => simp [connectBreadcrumbRender] at hok
  | some l =>
    cases l with
    | nil => simp [connectBreadcrumbRender] at hok
    | cons h t =>
      simp [connectBreadcrumbRender] at hok
      rw [← hok]
      simp

-- Shapes of `isRefined`, shared by the toggler claims.

theorem isRefined_point (state : SearchState) (attributeName n : String) (v : Int) :
    isRefined state attributeName ⟨n, some v, some v⟩ =
      hasNumericRefinement (getNumericRefinements state attributeName) Op.eq v := by
  simp [isRefined]

theorem isRefined_both_ne (state : SearchState) (attributeName n : String) (a b : Int)
    (hab : a ≠ b) :
    isRefined state attributeName ⟨n, some a, some b⟩ =
      hasNumericRefinement (getNumericRefinements state attributeName) Op.ge a := by
  simp [isRefined, hab]

-- C8

/-- C8: over a whole connector lifetime the first render-callback
invocation is the single one `init` makes, flagged `isFirstRendering =
true` and with the count-like fields at neutral defaults (`nbHits = 0`,
`nbPages = 0` for pagination; no items for breadcrumb); every invocation
a `render` makes afterwards is flagged `false`. -/
theorem connector_init_first_render (helperPage maxPages : Option Nat)
    (renderContexts : List (Nat × Nat × Nat)) (hierarchicalFacets : Option (List String))
    (facetsValues : FacetValueNode) (calls : List (BreadcrumbPayload × Bool))
    (hok : connectBreadcrumbRender hierarchicalFacets facetsValues = Except.ok calls) :
    (paginationTrace helperPage maxPages renderContexts).head? =
        some ({ currentPage := pageOrZero helperPage, nbHits := 0, nbPages := 0 }, true) ∧
      (paginationTrace helperPage maxPages renderContexts).tail.all (fun c => !c.2) = true ∧
      (connectPaginationInit helperPage).length = 1 ∧
      connectBreadcrumbInit = [({ canRefine := false, items := [] }, true)] ∧
      calls.all (fun c => !c.2) = true := by
  refine ⟨?_, ?_, rfl, rfl, ?_⟩
  · simp [paginationTrace, connectPaginationInit]
  · simpa [paginationTrace, connectPaginationInit] using
      paginationRenderCalls_all_not_first maxPages renderContexts
  · exact connectBreadcrumbRender_ok_not_first hierarchicalFacets facetsValues calls hok

/-- C8 witness: one completed search after `init`, for both connectors. -/
theorem connector_init_first_render_witness :
    (paginationTrace none (some 5) [(2, 7, 9)]).head? =
        some ({ currentPage := pageOrZero none, nbHits := 0, nbPages := 0 }, true) ∧
      (paginationTrace none (some 5) [(2, 7, 9)]).tail.all (fun c => !c.2) = true ∧
      (connectPaginationInit none).length = 1 ∧
      connectBreadcrumbInit = [({ canRefine := false, items := [] }, true)] ∧
      ([({ canRefine := false, items := [] }, false)] :
          List (BreadcrumbPayload × Bool)).all (fun c => !c.2) = true :=
  connector_init_first_render none (some 5) [(2, 7, 9)] (some ["cat"])
    (FacetValueNode.mk "r" "" true none)
    [({ canRefine := false, items := [] }, false)] (by decide)

-- C3

/-- C3: on an option with both bounds defined and `start < end`, one
`refine` call toggles the `>=` refinement at `start` and the `<=`
refinement at `end` in the same call, each against its own prior
presence: after the call the `>=` set holds `start` iff it did not
before, and the `<=` set holds `end` iff it did not before. -/
theorem refine_both_bounds_independent (state : SearchState) (attributeName : String)
    (options : List NumOption) (facetValue : String) (opt : NumOption) (a b : Int)
    (hfind : List.find? (fun o => o.name == facetValue) options = some opt)
    (hs : opt.start = some a) (he : opt.«end» = some b) (hlt : a < b) :
    ∃ s', refine state attributeName options facetValue = Except.ok s' ∧
      (a ∈ (s' attributeName).ge ↔ a ∉ (state attributeName).ge) ∧
      (b ∈ (s' attributeName).le ↔ b ∉ (state attributeName).le) := by
  obtain ⟨nm, os, oe⟩ := opt
  simp only [NumOption.start] at hs
  simp only [NumOption.«end»] at he
  subst hs he
  have hab : a ≠ b := ne_of_lt hlt
  have hgtf : ¬a > b := not_lt_of_gt hlt
  have hne : ¬((some a : Option Int) = none ∧ (some b : Option Int) = none) := by simp
  have hmain : refine state attributeName options facetValue =
      Except.ok (toggleStartEnd
        (if isRefined state attributeName ⟨nm, some a, some b⟩ then state
          else clearRefinements state attributeName)
        attributeName (getNumericRefinements state attributeName) ⟨nm, some a, some b⟩) := by
    simp [refine, hfind, hab, hgtf]
  refine ⟨_, hmain, ?_, ?_⟩ <;>
  · rw [isRefined_both_ne state attributeName nm a b hab]
    by_cases hSm : a ∈ (state attributeName).ge <;>
      by_cases hEm : b ∈ (state attributeName).le <;>
      · have hS := hasNumericRefinement_iff_mem (getNumericRefinements state attributeName) Op.ge a
        have hE := hasNumericRefinement_iff_mem (getNumericRefinements state attributeName) Op.le b
        simp only [opValues, getNumericRefinements] at hS hE
        simp [toggleStartEnd, addNumericRefinement, removeNumericRefinement,
          clearRefinements, getNumericRefinements, setNumericRefinements_same,
          setNumericRefinements_setNumericRefinements, setOpValues, opValues,
          Refinements.empty, hS, hE, hSm, hEm, List.mem_filter]

/-- C3 witness: the `>=` toggle adds 20 (absent before) and the `<=`
toggle adds 30 (absent before) in the same call. -/
theorem refine_both_bounds_independent_witness :
    ∃ t, refine (fun _ => ⟨[], [10], []⟩) "price" [⟨"q", some 20, some 30⟩] "q" =
        Except.ok t ∧
      (20 ∈ (t "price").ge ↔ (20 : Int) ∉ ([10] : List Int)) ∧
      (30 ∈ (t "price").le ↔ (30 : Int) ∉ ([] : List Int)) :=
  refine_both_bounds_independent (fun _ => ⟨[], [10], []⟩) "price"
    [⟨"q", some 20, some 30⟩] "q" ⟨"q", some 20, some 30⟩ 20 30 (by decide) rfl rfl
    (by decide)

-- C2

/-- C2: when the selected option (bounds `a < b`) is not currently
refined, `refine` first clears every numeric refinement of the attribute
and only then applies the option's constraints: the resulting
refinements of the attribute are exactly `>= a` plus `<= b` (the `<=`
value is omitted only when `b` was already present before the call, in
which case that toggle removes rather than adds); nothing of the prior
refinements survives. -/
theorem refine_not_refined_clears_first (state : SearchState) (attributeName : String)
    (options : List NumOption) (facetValue : String) (opt : NumOption) (a b : Int)
    (hfind : List.find? (fun o => o.name == facetValue) options = some opt)
    (hs : opt.start = some a) (he : opt.«end» = some b) (hlt : a < b)
    (hnr : isRefined state attributeName opt = false) :
    refine state attributeName options facetValue =
      Except.ok (setNumericRefinements state attributeName
        (if hasNumericRefinement (getNumericRefinements state attributeName) Op.le b then
          ⟨[], [a], []⟩
        else ⟨[], [a], [b]⟩)) := by
  obtain ⟨nm, os, oe⟩ := opt
  simp only [NumOption.start] at hs
  simp only [NumOption.«end»] at he
  subst hs he
  have hab : a ≠ b := ne_of_lt hlt
  have hgtf : ¬a > b := not_lt_of_gt hlt
  have hS : hasNumericRefinement (getNumericRefinements state attributeName) Op.ge a = false := by
    rw [← isRefined_both_ne state attributeName nm a b hab]
    exact hnr
  cases hE : hasNumericRefinement (getNumericRefinements state attributeName) Op.le b <;>
  · simp only [getNumericRefinements] at hS hE
    simp [refine, hfind, hab, hgtf, hnr, toggleStartEnd, hS, hE,
      addNumericRefinement, removeNumericRefinement, clearRefinements,
      getNumericRefinements, setNumericRefinements_same,
      setNumericRefinements_setNumericRefinements, setOpValues, opValues,
      Refinements.empty]

/-- C2 witness: the spec's example — the only prior refinement is
`>= 10`; toggling `{start: 20, end: 30}` yields exactly
`{>=: [20], <=: [30]}` for the attribute, with no remnant of 10. -/
theorem refine_not_refined_clears_first_witness :
    (refine (fun _ => ⟨[], [10], []⟩) "price" [⟨"q", some 20, some 30⟩] "q").map
        (fun s => s "price") = Except.ok ⟨[], [20], [30]⟩ := by
  rw [refine_not_refined_clears_first (fun _ => ⟨[], [10], []⟩) "price"
    [⟨"q", some 20, some 30⟩] "q" ⟨"q", some 20, some 30⟩ 20 30 (by decide) rfl rfl
    (by decide) (by decide)]
  decide

-- C1

/-- C1 counterexample: toggling the point option `{start: 20, end: 20}`
twice from a base state whose only refinement for the attribute is
`>= 10` does not return the base state — the first toggle's
mutual-exclusivity clear drops `>= 10` and the second toggle does not
restore it, leaving the attribute with no refinements at all. -/
theorem refine_point_involution_counterexample :
    ¬((refine (fun _ => ⟨[], [10], []⟩) "price" [⟨"p", some 20, some 20⟩] "p").bind
        (fun s => refine s "price" [⟨"p", some 20, some 20⟩] "p") =
      Except.ok (fun _ => ⟨[], [10], []⟩)) := by
  intro h
  have h2 : ((refine (fun _ => ⟨[], [10], []⟩) "price" [⟨"p", some 20, some 20⟩] "p").bind
        (fun s => refine s "price" [⟨"p", some 20, some 20⟩] "p")).map (fun s => s "price") =
      (Except.ok (fun _ => (⟨[], [10], []⟩ : Refinements) : SearchState)).map
        (fun s => s "price") := by rw [h]; rfl
  revert h2
  decide

/-- C1 amended: toggling a point option (equal defined bounds `v`) twice
from the same base state returns the base state provided the base state's
refinements for the attribute are either empty or exactly the single `=`
refinement at `v` (any other refinement of the attribute is dropped by
the first toggle's mutual-exclusivity clear and not restored). -/
theorem refine_point_involution (state : SearchState) (attributeName : String)
    (options : List NumOption) (facetValue : String) (opt : NumOption) (v : Int)
    (hfind : List.find? (fun o => o.name == facetValue) options = some opt)
    (hs : opt.start = some v) (he : opt.«end» = some v)
    (hbase : state attributeName = Refinements.empty ∨
      state attributeName = ⟨[v], [], []⟩) :
    (refine state attributeName options facetValue).bind
      (fun s => refine s attributeName options facetValue) = Except.ok state := by
  obtain ⟨nm, os, oe⟩ := opt
  simp only [NumOption.start] at hs
  simp only [NumOption.«end»] at he
  subst hs he
  rcases hbase with hb | hb
  · have h1 : refine state attributeName options facetValue =
        Except.ok (setNumericRefinements state attributeName ⟨[v], [], []⟩) := by
      simp [refine, hfind, isRefined, getNumericRefinements, hb,
        hasNumericRefinement, opValues, Refinements.empty, refinementsKeyCount,
        clearRefinements, addNumericRefinement, setNumericRefinements_same,
        setNumericRefinements_setNumericRefinements, setOpValues]
    rw [h1]
    have h2 : refine (setNumericRefinements state attributeName ⟨[v], [], []⟩)
        attributeName options facetValue =
        Except.ok (setNumericRefinements state attributeName Refinements.empty) := by
      simp [refine, hfind, isRefined, getNumericRefinements,
        hasNumericRefinement, opValues, Refinements.empty,
        clearRefinements, removeNumericRefinement, setNumericRefinements_same,
        setNumericRefinements_setNumericRefinements, setOpValues]
    calc (Except.ok (setNumericRefinements state attributeName ⟨[v], [], []⟩)).bind
          (fun s => refine s attributeName options facetValue)
        = refine (setNumericRefinements state attributeName ⟨[v], [], []⟩)
            attributeName options facetValue := rfl
      _ = Except.ok (setNumericRefinements state attributeName Refinements.empty) := h2
      _ = Except.ok state := by rw [← hb, setNumericRefinements_self]
  · have h1 : refine state attributeName options facetValue =
        Except.ok (setNumericRefinements state attributeName ⟨[], [], []⟩) := by
      simp [refine, hfind, isRefined, getNumericRefinements, hb,
        hasNumericRefinement, opValues, Refinements.empty,
        clearRefinements, removeNumericRefinement, setNumericRefinements_same,
        setNumericRefinements_setNumericRefinements, setOpValues]
    rw [h1]
    have h2 : refine (setNumericRefinements state attributeName ⟨[], [], []⟩)
        attributeName options facetValue =
        Except.ok (setNumericRefinements state attributeName ⟨[v], [], []⟩) := by
      simp [refine, hfind, isRefined, getNumericRefinements,
        hasNumericRefinement, opValues, Refinements.empty, refinementsKeyCount,
        clearRefinements, addNumericRefinement, setNumericRefinements_same,
        setNumericRefinements_setNumericRefinements, setOpValues]
    calc (Except.ok (setNumericRefinements state attributeName ⟨[], [], []⟩)).bind
          (fun s => refine s attributeName options facetValue)
        = refine (setNumericRefinements state attributeName ⟨[], [], []⟩)
            attributeName options facetValue := rfl
      _ = Except.ok (setNumericRefinements state attributeName ⟨[v], [], []⟩) := h2
      _ = Except.ok state := by rw [← hb, setNumericRefinements_self]

/-- C1 amended witness: the point option `{start: 20, end: 20}` toggled
twice from a base state whose attribute has no refinements. -/
theorem refine_point_involution_witness :
    (refine (fun _ => Refinements.empty) "price" [⟨"p", some 20, some 20⟩] "p").bind
      (fun s => refine s "price" [⟨"p", some 20, some 20⟩] "p") =
      Except.ok (fun _ => Refinements.empty) :=
  refine_point_involution (fun _ => Refinements.empty) "price"
    [⟨"p", some 20, some 20⟩] "p" ⟨"p", some 20, some 20⟩ 20 (by decide) rfl rfl
    (Or.inl rfl)
